import Mathlib

/-!
Verification of the planegcs WebAssembly binding layer.

The development shallowly embeds the parameter store and geometry
constructors of `GcsSystem` (from `build-bindings/templates/gcs_system.cpp.njk`)
and the property-offset resolver (from `sketch/geom_params.ts`), and proves
the contracts stated in the specification against those embeddings.

Modelling conventions:
* `vector<double*> p_params` / `vector<bool> is_fixed` become two Lean lists;
  a stable C++ heap pointer `p_params[i]` is represented by the index `i`.
* C++ `int` indices become `ℤ`; `vector::size()`/`size_t` comparisons follow
  the usual arithmetic conversions (a negative `int` converts to a huge
  `size_t`, so signed/unsigned comparisons treat it as out of range).
* A thrown `std::runtime_error` becomes `Except.error GcsError.IndexOutOfRange`.
* An out-of-range `vector::operator[]` access, which C++ leaves undefined,
  becomes the stuck state `Except.error GcsError.UndefinedBehavior`.
-/

namespace Planegcs

/-- Errors of the embedded semantics: `IndexOutOfRange` models the
`std::runtime_error("parameter index outside range")` thrown by
`p_param_or_fail`; `UndefinedBehavior` marks an execution that performs an
unchecked out-of-range `vector::operator[]` access (undefined in C++). -/
inductive GcsError where
  | IndexOutOfRange
  | UndefinedBehavior
deriving DecidableEq, Repr

/-- The state of a `GcsSystem` parameter store: the values behind the
`p_params` pointer vector and the `is_fixed` flag vector. -/
structure GcsSystem where
  p_params : List ℝ
  is_fixed : List Bool

/-- `GcsSystem()` constructor: both vectors start empty. -/
def GcsSystem.init : GcsSystem := ⟨[], []⟩

/-- `int params_size()` — returns `p_params.size()`. -/
def params_size (s : GcsSystem) : ℤ := s.p_params.length

/-- `double get_p_param(int i)` — `return *p_params[i];`, an unchecked
vector access: out of range is undefined behavior, not an error. -/
def get_p_param (s : GcsSystem) (i : ℤ) : Except GcsError ℝ :=
  if i < 0 then .error .UndefinedBehavior
  else
    match s.p_params[i.toNat]? with
    | some v => .ok v
    | none => .error .UndefinedBehavior

/-- `void set_p_param(int i, double value, bool fixed)` —
`*p_params[i] = value; is_fixed[i] = fixed;`, two unchecked vector
accesses in sequence. -/
def set_p_param (s : GcsSystem) (i : ℤ) (value : ℝ) (fixed : Bool) :
    Except GcsError (Unit × GcsSystem) :=
  if i < 0 then .error .UndefinedBehavior
  else if i.toNat < s.p_params.length then
    if i.toNat < s.is_fixed.length then
      .ok ((), ⟨s.p_params.set i.toNat value, s.is_fixed.set i.toNat fixed⟩)
    else .error .UndefinedBehavior
  else .error .UndefinedBehavior

/-- `int push_p_param(double value, bool fixed)` — records the current size
as the new index, appends to both vectors and returns the index. -/
def push_p_param (s : GcsSystem) (value : ℝ) (fixed : Bool) : ℤ × GcsSystem :=
  ((s.p_params.length : ℤ), ⟨s.p_params ++ [value], s.is_fixed ++ [fixed]⟩)

/-- `bool get_is_fixed(int i)` — `return is_fixed[i];`, an unchecked vector
access. -/
def get_is_fixed (s : GcsSystem) (i : ℤ) : Except GcsError Bool :=
  if i < 0 then .error .UndefinedBehavior
  else
    match s.is_fixed[i.toNat]? with
    | some b => .ok b
    | none => .error .UndefinedBehavior

/-- `vector<double> get_p_params()` — snapshot of all values. -/
def get_p_params (s : GcsSystem) : List ℝ := s.p_params

/-- `void clear_data()` — deletes every slot and clears both vectors
(the base-class `clear()` call concerns constraints, outside this store). -/
def clear_data (_s : GcsSystem) : GcsSystem := ⟨[], []⟩

end Planegcs

namespace Planegcs

/-! ## `sketch/geom_params.ts` — property-offset resolution -/

/-- The `SketchGeometryProperty` union type. -/
inductive SketchGeometryProperty where
  | x
  | y
  | radius
  | start_angle
  | end_angle
  | radmin
  | start_x
  | start_y
  | end_x
  | end_y
deriving DecidableEq, Repr

/-- The geometry kinds appearing as keys of `property_offsets`. -/
inductive GeometryKind where
  | point
  | circle
  | arc
  | ellipse
  | arc_of_ellipse
  | parabola
  | arc_of_parabola
  | hyperbola
  | arc_of_hyperbola
  | bspline
  | line
deriving DecidableEq, Repr

/-- The fields of a `SketchGeometry` value read by `get_property_offset`:
its `type` tag and, for a B-spline, the `control_points`, `weights` and
`knots` arrays (only their lengths are consulted). -/
structure SketchGeometry where
  type : GeometryKind
  control_points : List String
  weights : List ℝ
  knots : List ℝ

/-- The error thrown by `get_property_offset`:
`Unknown property <prop> for primitive <kind>`. -/
inductive GeomParamsError where
  | UnknownProperty (prop : SketchGeometryProperty) (kind : GeometryKind)
deriving DecidableEq, Repr

/-- The static `property_offsets` table. Each kind maps a property name to
its offset, or to `none` when the kind has no such property. The `bspline`
entry holds the relative offsets added to the dynamically computed base. -/
def property_offsets (kind : GeometryKind) : SketchGeometryProperty → Option ℕ :=
  match kind with
  | .point => fun p =>
      match p with
      | .x => some 0
      | .y => some 1
      | _ => none
  | .circle => fun p =>
      match p with
      | .radius => some 0
      | _ => none
  | .arc => fun p =>
      match p with
      | .start_angle => some 0
      | .end_angle => some 1
      | .radius => some 2
      | _ => none
  | .ellipse => fun p =>
      match p with
      | .radmin => some 0
      | _ => none
  | .arc_of_ellipse => fun p =>
      match p with
      | .start_angle => some 0
      | .end_angle => some 1
      | .radmin => some 2
      | _ => none
  | .parabola => fun _ => none
  | .arc_of_parabola => fun p =>
      match p with
      | .start_angle => some 0
      | .end_angle => some 1
      | _ => none
  | .hyperbola => fun p =>
      match p with
      | .radmin => some 0
      | _ => none
  | .arc_of_hyperbola => fun p =>
      match p with
      | .start_angle => some 0
      | .end_angle => some 1
      | .radmin => some 2
      | _ => none
  | .bspline => fun p =>
      match p with
      | .start_x => some 0
      | .start_y => some 1
      | .end_x => some 2
      | .end_y => some 3
      | _ => none
  | .line => fun _ => none

/-! ## Geometry constructors (`make_<geometry>` methods of `GcsSystem`)

A C++ geometry view holds `double*` pointers into the store; a pointer
`p_params[i]` is represented by the index `i` (of type `ℤ`, mirroring the
`int` index arguments). Each `make_*` method returns the method result
together with the store after the call — the store member vectors are
never written by these methods, also when the exception propagates. -/

/-- A `GCS::Point` view: two parameter pointers. -/
structure Point where
  x : ℤ
  y : ℤ
deriving DecidableEq, Repr

/-- A `GCS::Line` view. -/
structure Line where
  p1 : Point
  p2 : Point
deriving DecidableEq, Repr

/-- A `GCS::Circle` view. -/
structure Circle where
  center : Point
  rad : ℤ
deriving DecidableEq, Repr

/-- A `GCS::Ellipse` view. -/
structure Ellipse where
  center : Point
  focus1 : Point
  radmin : ℤ
deriving DecidableEq, Repr

/-- A `GCS::Hyperbola` view. -/
structure Hyperbola where
  center : Point
  focus1 : Point
  radmin : ℤ
deriving DecidableEq, Repr

/-- A `GCS::Parabola` view. -/
structure Parabola where
  vertex : Point
  focus1 : Point
deriving DecidableEq, Repr

/-- A `GCS::Arc` view (`end_pt` renders the C++ field `end`). -/
structure Arc where
  center : Point
  start : Point
  end_pt : Point
  startAngle : ℤ
  endAngle : ℤ
  rad : ℤ
deriving DecidableEq, Repr

/-- A `GCS::ArcOfEllipse` view. -/
structure ArcOfEllipse where
  center : Point
  start : Point
  end_pt : Point
  focus1 : Point
  startAngle : ℤ
  endAngle : ℤ
  radmin : ℤ
deriving DecidableEq, Repr

/-- A `GCS::ArcOfParabola` view. -/
structure ArcOfParabola where
  start : Point
  end_pt : Point
  focus1 : Point
  vertex : Point
  startAngle : ℤ
  endAngle : ℤ
deriving DecidableEq, Repr

/-- A `GCS::ArcOfHyperbola` view. -/
structure ArcOfHyperbola where
  center : Point
  start : Point
  end_pt : Point
  focus1 : Point
  startAngle : ℤ
  endAngle : ℤ
  radmin : ℤ
deriving DecidableEq, Repr

/-- A `GCS::BSpline` view (`end_pt` renders the C++ field `end`). -/
structure BSpline where
  start : Point
  end_pt : Point
  degree : ℤ
  periodic : Bool
  mult : List ℤ
  poles : List Point
  weights : List ℤ
  knots : List ℤ
deriving DecidableEq, Repr

/-- `double* p_param_or_fail(int i)` — throws
`std::runtime_error("parameter index outside range")` when
`p_params.size() <= i`; the `size_t`/`int` comparison converts a negative
`i` to a huge unsigned value, so negative indices also throw. Returns the
pointer `p_params[i]`, represented by the index itself. -/
def p_param_or_fail (s : GcsSystem) (i : ℤ) : Except GcsError ℤ :=
  if i < 0 ∨ (s.p_params.length : ℤ) ≤ i then .error .IndexOutOfRange
  else .ok i

/-- `Point make_point(int px_i, int py_i)`. -/
def make_point (s : GcsSystem) (px_i py_i : ℤ) :
    Except GcsError Point × GcsSystem :=
  match p_param_or_fail s px_i with
  | .error e => (.error e, s)
  | .ok x =>
    match p_param_or_fail s py_i with
    | .error e => (.error e, s)
    | .ok y => (.ok ⟨x, y⟩, s)

/-- `Line make_line(int p1x_i, int p1y_i, int p2x_i, int p2y_i)`. -/
def make_line (s : GcsSystem) (p1x_i p1y_i p2x_i p2y_i : ℤ) :
    Except GcsError Line × GcsSystem :=
  match make_point s p1x_i p1y_i with
  | (.error e, s1) => (.error e, s1)
  | (.ok p1, s1) =>
    match make_point s1 p2x_i p2y_i with
    | (.error e, s2) => (.error e, s2)
    | (.ok p2, s2) => (.ok ⟨p1, p2⟩, s2)

/-- `Circle make_circle(int cx_i, int cy_i, int rad_i)`. -/
def make_circle (s : GcsSystem) (cx_i cy_i rad_i : ℤ) :
    Except GcsError Circle × GcsSystem :=
  match make_point s cx_i cy_i with
  | (.error e, s1) => (.error e, s1)
  | (.ok cp, s1) =>
    match p_param_or_fail s1 rad_i with
    | .error e => (.error e, s1)
    | .ok r => (.ok ⟨cp, r⟩, s1)

/-- `Ellipse make_ellipse(...)` — center, focus1, radmin in that order. -/
def make_ellipse (s : GcsSystem) (cx_i cy_i focus1x_i focus1y_i radmin_i : ℤ) :
    Except GcsError Ellipse × GcsSystem :=
  match make_point s cx_i cy_i with
  | (.error e, s1) => (.error e, s1)
  | (.ok c, s1) =>
    match make_point s1 focus1x_i focus1y_i with
    | (.error e, s2) => (.error e, s2)
    | (.ok f1, s2) =>
      match p_param_or_fail s2 radmin_i with
      | .error e => (.error e, s2)
      | .ok rm => (.ok ⟨c, f1, rm⟩, s2)

/-- `Hyperbola make_hyperbola(...)` — center, focus1, radmin in that order. -/
def make_hyperbola (s : GcsSystem) (cx_i cy_i focus1x_i focus1y_i radmin_i : ℤ) :
    Except GcsError Hyperbola × GcsSystem :=
  match make_point s cx_i cy_i with
  | (.error e, s1) => (.error e, s1)
  | (.ok c, s1) =>
    match make_point s1 focus1x_i focus1y_i with
    | (.error e, s2) => (.error e, s2)
    | (.ok f1, s2) =>
      match p_param_or_fail s2 radmin_i with
      | .error e => (.error e, s2)
      | .ok rm => (.ok ⟨c, f1, rm⟩, s2)

/-- `Parabola make_parabola(...)` — the source evaluates the focus point
before the vertex point. -/
def make_parabola (s : GcsSystem) (vertexx_i vertexy_i focus1x_i focus1y_i : ℤ) :
    Except GcsError Parabola × GcsSystem :=
  match make_point s focus1x_i focus1y_i with
  | (.error e, s1) => (.error e, s1)
  | (.ok f1, s1) =>
    match make_point s1 vertexx_i vertexy_i with
    | (.error e, s2) => (.error e, s2)
    | (.ok v, s2) => (.ok { vertex := v, focus1 := f1 }, s2)

/-- `Arc make_arc(...)` — center, start and end points first, then the
start-angle, end-angle and radius parameters. -/
def make_arc (s : GcsSystem)
    (cx_i cy_i startx_i starty_i endx_i endy_i startangle_i endangle_i rad_i : ℤ) :
    Except GcsError Arc × GcsSystem :=
  match make_point s cx_i cy_i with
  | (.error e, s1) => (.error e, s1)
  | (.ok c, s1) =>
    match make_point s1 startx_i starty_i with
    | (.error e, s2) => (.error e, s2)
    | (.ok st, s2) =>
      match make_point s2 endx_i endy_i with
      | (.error e, s3) => (.error e, s3)
      | (.ok en, s3) =>
        match p_param_or_fail s3 startangle_i with
        | .error e => (.error e, s3)
        | .ok sa =>
          match p_param_or_fail s3 endangle_i with
          | .error e => (.error e, s3)
          | .ok ea =>
            match p_param_or_fail s3 rad_i with
            | .error e => (.error e, s3)
            | .ok r => (.ok ⟨c, st, en, sa, ea, r⟩, s3)

/-- `ArcOfEllipse make_arc_of_ellipse(...)` — source evaluation order:
center, start, start angle, end, end angle, radmin, focus1. -/
def make_arc_of_ellipse (s : GcsSystem)
    (cx_i cy_i focus1x_i focus1y_i startx_i starty_i endx_i endy_i
      startangle_i endangle_i radmin_i : ℤ) :
    Except GcsError ArcOfEllipse × GcsSystem :=
  match make_point s cx_i cy_i with
  | (.error e, s1) => (.error e, s1)
  | (.ok c, s1) =>
    match make_point s1 startx_i starty_i with
    | (.error e, s2) => (.error e, s2)
    | (.ok st, s2) =>
      match p_param_or_fail s2 startangle_i with
      | .error e => (.error e, s2)
      | .ok sa =>
        match make_point s2 endx_i endy_i with
        | (.error e, s3) => (.error e, s3)
        | (.ok en, s3) =>
          match p_param_or_fail s3 endangle_i with
          | .error e => (.error e, s3)
          | .ok ea =>
            match p_param_or_fail s3 radmin_i with
            | .error e => (.error e, s3)
            | .ok rm =>
              match make_point s3 focus1x_i focus1y_i with
              | (.error e, s4) => (.error e, s4)
              | (.ok f1, s4) => (.ok ⟨c, st, en, f1, sa, ea, rm⟩, s4)

/-- `ArcOfParabola make_arc_of_parabola(...)` — source evaluation order:
start, start angle, end, end angle, focus, vertex. -/
def make_arc_of_parabola (s : GcsSystem)
    (vertexx_i vertexy_i focusx_i focusy_i startx_i starty_i endx_i endy_i
      startangle_i endangle_i : ℤ) :
    Except GcsError ArcOfParabola × GcsSystem :=
  match make_point s startx_i starty_i with
  | (.error e, s1) => (.error e, s1)
  | (.ok st, s1) =>
    match p_param_or_fail s1 startangle_i with
    | .error e => (.error e, s1)
    | .ok sa =>
      match make_point s1 endx_i endy_i with
      | (.error e, s2) => (.error e, s2)
      | (.ok en, s2) =>
        match p_param_or_fail s2 endangle_i with
        | .error e => (.error e, s2)
        | .ok ea =>
          match make_point s2 focusx_i focusy_i with
          | (.error e, s3) => (.error e, s3)
          | (.ok f1, s3) =>
            match make_point s3 vertexx_i vertexy_i with
            | (.error e, s4) => (.error e, s4)
            | (.ok v, s4) => (.ok ⟨st, en, f1, v, sa, ea⟩, s4)

/-- `ArcOfHyperbola make_arc_of_hyperbola(...)` — source evaluation order:
center, start, start angle, end, end angle, radmin, focus1. -/
def make_arc_of_hyperbola (s : GcsSystem)
    (cx_i cy_i focus1x_i focus1y_i startx_i starty_i endx_i endy_i
      startangle_i endangle_i radmin_i : ℤ) :
    Except GcsError ArcOfHyperbola × GcsSystem :=
  match make_point s cx_i cy_i with
  | (.error e, s1) => (.error e, s1)
  | (.ok c, s1) =>
    match make_point s1 startx_i starty_i with
    | (.error e, s2) => (.error e, s2)
    | (.ok st, s2) =>
      match p_param_or_fail s2 startangle_i with
      | .error e => (.error e, s2)
      | .ok sa =>
        match make_point s2 endx_i endy_i with
        | (.error e, s3) => (.error e, s3)
        | (.ok en, s3) =>
          match p_param_or_fail s3 endangle_i with
          | .error e => (.error e, s3)
          | .ok ea =>
            match p_param_or_fail s3 radmin_i with
            | .error e => (.error e, s3)
            | .ok rm =>
              match make_point s3 focus1x_i focus1y_i with
              | (.error e, s4) => (.error e, s4)
              | (.ok f1, s4) => (.ok ⟨c, st, en, f1, sa, ea, rm⟩, s4)

/-- The pole loop of `make_bspline`:
`for (i = 0; i < poles_xy_i.size(); i += 2) poles.push_back(make_point(poles_xy_i[i], poles_xy_i[i+1]))`.
When exactly one element remains, the loop body reads `poles_xy_i[i+1]`
one element past the end of the vector — undefined behavior. -/
def make_poles (s : GcsSystem) : List ℤ → Except GcsError (List Point)
  | [] => .ok []
  | [_] => .error .UndefinedBehavior
  | x_i :: y_i :: rest =>
    match make_point s x_i y_i with
    | (.error e, _) => .error e
    | (.ok p, _) =>
      match make_poles s rest with
      | .error e => .error e
      | .ok ps => .ok (p :: ps)

/-- A loop `for (i...) out.push_back(p_param_or_fail(v[i]))` over an index
vector, as used for the weights and knots of `make_bspline`. -/
def p_params_or_fail (s : GcsSystem) : List ℤ → Except GcsError (List ℤ)
  | [] => .ok []
  | i :: rest =>
    match p_param_or_fail s i with
    | .error e => .error e
    | .ok v =>
      match p_params_or_fail s rest with
      | .error e => .error e
      | .ok vs => .ok (v :: vs)

/-- `BSpline make_bspline(...)` — start point, end point, structural
fields, then the pole, weight and knot loops in that order. -/
def make_bspline (s : GcsSystem) (startx_i starty_i endx_i endy_i : ℤ)
    (poles_xy_i weights_i knots_i mult : List ℤ) (degree : ℤ) (periodic : Bool) :
    Except GcsError BSpline × GcsSystem :=
  match make_point s startx_i starty_i with
  | (.error e, s1) => (.error e, s1)
  | (.ok st, s1) =>
    match make_point s1 endx_i endy_i with
    | (.error e, s2) => (.error e, s2)
    | (.ok en, s2) =>
      match make_poles s2 poles_xy_i with
      | .error e => (.error e, s2)
      | .ok ps =>
        match p_params_or_fail s2 weights_i with
        | .error e => (.error e, s2)
        | .ok ws =>
          match p_params_or_fail s2 knots_i with
          | .error e => (.error e, s2)
          | .ok ks =>
            (.ok { start := st, end_pt := en, degree := degree,
                   periodic := periodic, mult := mult, poles := ps,
                   weights := ws, knots := ks }, s2)

/-! ## `solve_system` — free-parameter collection and algorithm choice -/

/-- The free-parameter loop of `solve_system`:
`for (i = 0; i < p_params.size(); ++i) if (!is_fixed[i]) solved_p_params.push_back(p_params[i])`.
The `is_fixed[i]` read is unchecked; a pushed pointer `p_params[i]` is
represented by the index `i`. -/
def collect_free_params (flags : List Bool) : List ℕ → Except GcsError (List ℕ)
  | [] => .ok []
  | i :: rest =>
    match flags[i]? with
    | none => .error .UndefinedBehavior
    | some b =>
      match collect_free_params flags rest with
      | .error e => .error e
      | .ok tail => .ok (if b then tail else i :: tail)

/-- The `solved_p_params` vector handed to the external `solve` call by
`solve_system`, as the list of store indices it aliases. -/
def solve_system_free_params (s : GcsSystem) : Except GcsError (List ℕ) :=
  collect_free_params s.is_fixed (List.range s.p_params.length)

/-- The `Algorithm` enum of `GCS.h` as exposed to `solve_system`. -/
inductive Algorithm where
  | BFGS
  | LevenbergMarquardt
  | DogLeg
deriving DecidableEq, Repr

/-- The algorithm actually executed by the underlying solver: one of the
caller-selectable algorithms, or the SQP override. -/
inductive EffectiveAlgorithm where
  | Standard (alg : Algorithm)
  | SQP
deriving DecidableEq, Repr

/-- The per-constraint modifiers of a registered constraint:
`driving` (default true), `temporary` (default false), `scale` (default 1),
plus the bulk-removal tag. -/
structure SketchConstraint where
  driving : Bool
  temporary : Bool
  scale : ℝ
  tag : ℤ

/-- Modelled from the spec: the body of `GCS::System::solve` is FreeCAD
planegcs code not present in this repository's sources (only its header is
included by the binding), and it decides the effective algorithm. Per the
spec and the repository README ("when the sketch contains constraints with
a flag `temporary` set to true, then the parameter is ignored and instead
the SQP algorithm is used"), the presence of any temporary constraint
overrides the requested algorithm with SQP. -/
def system_solve_algorithm (constraints : List SketchConstraint)
    (requested : Algorithm) : EffectiveAlgorithm :=
  if constraints.any (fun c => c.temporary) then .SQP
  else .Standard requested

/-- `get_property_offset(primitive, property_key)`: for a B-spline the
offset is `control_points.length * 2 + weights.length + knots.length` plus
the relative offset from the table; for every other kind it is a static
table lookup; an unknown property throws. -/
def get_property_offset (primitive : SketchGeometry)
    (property_key : SketchGeometryProperty) : Except GeomParamsError ℕ :=
  if primitive.type = .bspline then
    let base := primitive.control_points.length * 2 +
      primitive.weights.length + primitive.knots.length
    match property_key with
    | .start_x => .ok (base + 0)
    | .start_y => .ok (base + 1)
    | .end_x => .ok (base + 2)
    | .end_y => .ok (base + 3)
    | _ => .error (.UnknownProperty property_key primitive.type)
  else
    match property_offsets primitive.type property_key with
    | some offset => .ok offset
    | none => .error (.UnknownProperty property_key primitive.type)

end Planegcs

namespace Planegcs

/-! ## Theorems about property-offset resolution -/

/-- The addressable scalar properties of each geometry kind as the
specification declares them (stated from the spec's words, to be compared
with the behavior of `get_property_offset`). -/
def addressable (kind : GeometryKind) (prop : SketchGeometryProperty) : Bool :=
  match kind, prop with
  | .point, .x | .point, .y => true
  | .circle, .radius => true
  | .arc, .start_angle | .arc, .end_angle | .arc, .radius => true
  | .ellipse, .radmin => true
  | .hyperbola, .radmin => true
  | .arc_of_ellipse, .start_angle | .arc_of_ellipse, .end_angle
  | .arc_of_ellipse, .radmin => true
  | .arc_of_hyperbola, .start_angle | .arc_of_hyperbola, .end_angle
  | .arc_of_hyperbola, .radmin => true
  | .arc_of_parabola, .start_angle | .arc_of_parabola, .end_angle => true
  | .bspline, .start_x | .bspline, .start_y
  | .bspline, .end_x | .bspline, .end_y => true
  | _, _ => false

/-- C2: for every B-Spline instance with `c` control points, `w` weights
and `k` knots, offset resolution returns `2*c + w + k + 0 .. 3` for
`start_x`, `start_y`, `end_x`, `end_y`; in particular for 4 control
points, 4 weights and 8 knots it returns 20, 21, 22 and 23. -/
theorem bspline_offsets_shape_dependent (cps : List String) (ws ks : List ℝ) :
    (get_property_offset ⟨.bspline, cps, ws, ks⟩ .start_x
        = .ok (2 * cps.length + ws.length + ks.length + 0)
      ∧ get_property_offset ⟨.bspline, cps, ws, ks⟩ .start_y
        = .ok (2 * cps.length + ws.length + ks.length + 1)
      ∧ get_property_offset ⟨.bspline, cps, ws, ks⟩ .end_x
        = .ok (2 * cps.length + ws.length + ks.length + 2)
      ∧ get_property_offset ⟨.bspline, cps, ws, ks⟩ .end_y
        = .ok (2 * cps.length + ws.length + ks.length + 3))
    ∧ (get_property_offset
          ⟨.bspline, ["a", "b", "c", "d"], [1, 1, 1, 1], [0, 0, 0, 0, 1, 1, 1, 1]⟩
          .start_x = .ok 20
      ∧ get_property_offset
          ⟨.bspline, ["a", "b", "c", "d"], [1, 1, 1, 1], [0, 0, 0, 0, 1, 1, 1, 1]⟩
          .start_y = .ok 21
      ∧ get_property_offset
          ⟨.bspline, ["a", "b", "c", "d"], [1, 1, 1, 1], [0, 0, 0, 0, 1, 1, 1, 1]⟩
          .end_x = .ok 22
      ∧ get_property_offset
          ⟨.bspline, ["a", "b", "c", "d"], [1, 1, 1, 1], [0, 0, 0, 0, 1, 1, 1, 1]⟩
          .end_y = .ok 23) := by
  refine ⟨⟨?_, ?_, ?_, ?_⟩, ?_, ?_, ?_, ?_⟩ <;>
    simp [get_property_offset] <;> omega

/-- C6: for every fixed-arity geometry kind and every instance shape,
offset resolution returns the static per-kind offset; parabola and line
have no addressable scalar properties. -/
theorem fixed_arity_offsets_static (cps : List String) (ws ks : List ℝ) :
    get_property_offset ⟨.point, cps, ws, ks⟩ .x = .ok 0
    ∧ get_property_offset ⟨.point, cps, ws, ks⟩ .y = .ok 1
    ∧ get_property_offset ⟨.circle, cps, ws, ks⟩ .radius = .ok 0
    ∧ get_property_offset ⟨.arc, cps, ws, ks⟩ .start_angle = .ok 0
    ∧ get_property_offset ⟨.arc, cps, ws, ks⟩ .end_angle = .ok 1
    ∧ get_property_offset ⟨.arc, cps, ws, ks⟩ .radius = .ok 2
    ∧ get_property_offset ⟨.ellipse, cps, ws, ks⟩ .radmin = .ok 0
    ∧ get_property_offset ⟨.hyperbola, cps, ws, ks⟩ .radmin = .ok 0
    ∧ get_property_offset ⟨.arc_of_ellipse, cps, ws, ks⟩ .start_angle = .ok 0
    ∧ get_property_offset ⟨.arc_of_ellipse, cps, ws, ks⟩ .end_angle = .ok 1
    ∧ get_property_offset ⟨.arc_of_ellipse, cps, ws, ks⟩ .radmin = .ok 2
    ∧ get_property_offset ⟨.arc_of_hyperbola, cps, ws, ks⟩ .start_angle = .ok 0
    ∧ get_property_offset ⟨.arc_of_hyperbola, cps, ws, ks⟩ .end_angle = .ok 1
    ∧ get_property_offset ⟨.arc_of_hyperbola, cps, ws, ks⟩ .radmin = .ok 2
    ∧ get_property_offset ⟨.arc_of_parabola, cps, ws, ks⟩ .start_angle = .ok 0
    ∧ get_property_offset ⟨.arc_of_parabola, cps, ws, ks⟩ .end_angle = .ok 1
    ∧ (∀ p, get_property_offset ⟨.parabola, cps, ws, ks⟩ p
        = .error (.UnknownProperty p .parabola))
    ∧ (∀ p, get_property_offset ⟨.line, cps, ws, ks⟩ p
        = .error (.UnknownProperty p .line)) := by
  refine ⟨?_, ?_, ?_, ?_, ?_, ?_, ?_, ?_, ?_, ?_, ?_, ?_, ?_, ?_, ?_, ?_, ?_, ?_⟩ <;>
    first
      | rfl
      | (intro p; cases p <;> rfl)

/-- C7: for every geometry kind and every property name, offset resolution
fails — with an UnknownProperty error naming the property and the kind —
exactly when the property is not an addressable property of that kind. -/
theorem unknown_property_fails_closed (prim : SketchGeometry)
    (prop : SketchGeometryProperty) :
    get_property_offset prim prop = .error (.UnknownProperty prop prim.type)
      ↔ addressable prim.type prop = false := by
  obtain ⟨t, cps, ws, ks⟩ := prim
  cases t <;> cases prop <;>
    simp [get_property_offset, addressable, property_offsets]

end Planegcs

namespace Planegcs

/-! ## Theorems about the parameter store -/

/-- An index is valid for a store when it addresses an allocated slot. -/
def validIdx (s : GcsSystem) (i : ℤ) : Prop :=
  0 ≤ i ∧ i < (s.p_params.length : ℤ)

instance (s : GcsSystem) (i : ℤ) : Decidable (validIdx s i) :=
  inferInstanceAs (Decidable (0 ≤ i ∧ i < (s.p_params.length : ℤ)))

theorem ppf_ok {s : GcsSystem} {i : ℤ} (h : validIdx s i) :
    p_param_or_fail s i = .ok i := by
  obtain ⟨h0, h1⟩ := h
  unfold p_param_or_fail
  rw [if_neg (by omega)]

theorem ppf_err {s : GcsSystem} {i : ℤ} (h : ¬ validIdx s i) :
    p_param_or_fail s i = .error .IndexOutOfRange := by
  unfold validIdx at h
  unfold p_param_or_fail
  rw [if_pos (by omega)]

/-- C1 counterexample: on the store obtained by `clear_data` from a
one-slot store, index `0` is out of range, yet none of `get_p_param`,
`set_p_param`, `get_is_fixed` produces an IndexOutOfRange error — the code
performs an unchecked vector access instead. -/
theorem accessor_no_index_check_counterexample :
    get_p_param (clear_data ⟨[5], [true]⟩) 0 = .error .UndefinedBehavior
    ∧ get_p_param (clear_data ⟨[5], [true]⟩) 0 ≠ .error .IndexOutOfRange
    ∧ set_p_param (clear_data ⟨[5], [true]⟩) 0 1 true = .error .UndefinedBehavior
    ∧ set_p_param (clear_data ⟨[5], [true]⟩) 0 1 true ≠ .error .IndexOutOfRange
    ∧ get_is_fixed (clear_data ⟨[5], [true]⟩) 0 = .error .UndefinedBehavior
    ∧ get_is_fixed (clear_data ⟨[5], [true]⟩) 0 ≠ .error .IndexOutOfRange := by
  refine ⟨?_, ?_, ?_, ?_, ?_, ?_⟩ <;>
    simp [clear_data, get_p_param, set_p_param, get_is_fixed]

/-- C1 (amended): `get_p_param`, `set_p_param` and `get_is_fixed` perform
no bounds check — an out-of-range index (negative, at least `size()`, or
any index once `clear_data` has reset `size()` to 0) is an unchecked
vector access, i.e. undefined behavior, not an IndexOutOfRange error; only
`p_param_or_fail` (used by the geometry constructors) raises
IndexOutOfRange, and `clear_data` does reset the store to the empty state,
invalidating every index. -/
theorem accessors_out_of_range_unchecked (s : GcsSystem) (i : ℤ)
    (value : ℝ) (fixed : Bool)
    (hlen : s.is_fixed.length = s.p_params.length)
    (h : i < 0 ∨ (s.p_params.length : ℤ) ≤ i) :
    get_p_param s i = .error .UndefinedBehavior
    ∧ set_p_param s i value fixed = .error .UndefinedBehavior
    ∧ get_is_fixed s i = .error .UndefinedBehavior
    ∧ p_param_or_fail s i = .error .IndexOutOfRange
    ∧ clear_data s = GcsSystem.init
    ∧ params_size (clear_data s) = 0
    ∧ (∀ j : ℤ, ¬ validIdx (clear_data s) j) := by
  refine ⟨?_, ?_, ?_, ?_, rfl, rfl, ?_⟩
  · unfold get_p_param
    rcases h with h | h
    · rw [if_pos h]
    · rw [if_neg (by omega), List.getElem?_eq_none (by omega)]
  · unfold set_p_param
    rcases h with h | h
    · rw [if_pos h]
    · rw [if_neg (by omega), if_neg (by omega)]
  · unfold get_is_fixed
    rcases h with h | h
    · rw [if_pos h]
    · rw [if_neg (by omega), List.getElem?_eq_none (by omega)]
  · exact ppf_err (by unfold validIdx; omega)
  · intro j
    unfold validIdx clear_data
    simp

/-- Witness for `accessors_out_of_range_unchecked` at a concrete store and
index. -/
theorem accessors_out_of_range_unchecked_witness :
    get_p_param ⟨[5], [true]⟩ 3 = .error .UndefinedBehavior
    ∧ set_p_param ⟨[5], [true]⟩ 3 2 false = .error .UndefinedBehavior
    ∧ get_is_fixed ⟨[5], [true]⟩ 3 = .error .UndefinedBehavior
    ∧ p_param_or_fail ⟨[5], [true]⟩ 3 = .error .IndexOutOfRange
    ∧ clear_data ⟨[5], [true]⟩ = GcsSystem.init
    ∧ params_size (clear_data ⟨[5], [true]⟩) = 0
    ∧ (∀ j : ℤ, ¬ validIdx (clear_data ⟨[5], [true]⟩) j) :=
  accessors_out_of_range_unchecked ⟨[5], [true]⟩ 3 2 false rfl (by norm_num)

end Planegcs

namespace Planegcs

/-- C8: `push_p_param` returns the store's current size as the new index,
after which `get_p_param`/`get_is_fixed` at that index return exactly the
pushed value and flag and the size has grown by one; and after
`set_p_param` on a valid index, `get_p_param`/`get_is_fixed` return the
newly set value and flag with the size unchanged. -/
theorem push_set_get_roundtrip (s : GcsSystem) (value : ℝ) (fixed : Bool)
    (hlen : s.is_fixed.length = s.p_params.length) :
    (push_p_param s value fixed).1 = params_size s
    ∧ params_size (push_p_param s value fixed).2 = params_size s + 1
    ∧ get_p_param (push_p_param s value fixed).2 (push_p_param s value fixed).1
        = .ok value
    ∧ get_is_fixed (push_p_param s value fixed).2 (push_p_param s value fixed).1
        = .ok fixed
    ∧ (∀ (i : ℤ) (v' : ℝ) (f' : Bool), validIdx s i →
        ∃ s', set_p_param s i v' f' = .ok ((), s')
          ∧ get_p_param s' i = .ok v'
          ∧ get_is_fixed s' i = .ok f'
          ∧ params_size s' = params_size s) := by
  refine ⟨rfl, ?_, ?_, ?_, ?_⟩
  · simp [push_p_param, params_size]
  · unfold get_p_param push_p_param
    dsimp only
    rw [if_neg (by omega)]
    have hget : (s.p_params ++ [value])[((s.p_params.length : ℤ)).toNat]?
        = some value := by
      rw [Int.toNat_natCast]
      exact List.getElem?_concat_length s.p_params value
    rw [hget]
  · unfold get_is_fixed push_p_param
    dsimp only
    rw [if_neg (by omega)]
    have hget : (s.is_fixed ++ [fixed])[((s.p_params.length : ℤ)).toNat]?
        = some fixed := by
      rw [Int.toNat_natCast, ← hlen]
      exact List.getElem?_concat_length s.is_fixed fixed
    rw [hget]
  · intro i v' f' hv
    obtain ⟨h0, h1⟩ := hv
    refine ⟨⟨s.p_params.set i.toNat v', s.is_fixed.set i.toNat f'⟩, ?_, ?_, ?_, ?_⟩
    · unfold set_p_param
      rw [if_neg (by omega), if_pos (by omega), if_pos (by omega)]
    · unfold get_p_param
      dsimp only
      rw [if_neg (by omega)]
      have hget : (s.p_params.set i.toNat v')[i.toNat]? = some v' :=
        List.getElem?_set_self (by omega)
      rw [hget]
    · unfold get_is_fixed
      dsimp only
      rw [if_neg (by omega)]
      have hget : (s.is_fixed.set i.toNat f')[i.toNat]? = some f' :=
        List.getElem?_set_self (by omega)
      rw [hget]
    · simp [params_size]

/-- Witness for `push_set_get_roundtrip` on a two-slot store. -/
theorem push_set_get_roundtrip_witness :
    (push_p_param ⟨[1, 2], [true, false]⟩ 3 true).1
        = params_size ⟨[1, 2], [true, false]⟩
    ∧ params_size (push_p_param ⟨[1, 2], [true, false]⟩ 3 true).2
        = params_size ⟨[1, 2], [true, false]⟩ + 1
    ∧ get_p_param (push_p_param ⟨[1, 2], [true, false]⟩ 3 true).2
        (push_p_param ⟨[1, 2], [true, false]⟩ 3 true).1 = .ok 3
    ∧ get_is_fixed (push_p_param ⟨[1, 2], [true, false]⟩ 3 true).2
        (push_p_param ⟨[1, 2], [true, false]⟩ 3 true).1 = .ok true
    ∧ (∃ s', set_p_param ⟨[1, 2], [true, false]⟩ 0 7 true = .ok ((), s')
        ∧ get_p_param s' 0 = .ok 7
        ∧ get_is_fixed s' 0 = .ok true
        ∧ params_size s' = params_size ⟨[1, 2], [true, false]⟩) := by
  have h := push_set_get_roundtrip ⟨[1, 2], [true, false]⟩ 3 true rfl
  exact ⟨h.1, h.2.1, h.2.2.1, h.2.2.2.1,
    h.2.2.2.2 0 7 true ⟨by norm_num, by norm_num⟩⟩

/-- The parameter-store states reachable by sequences of store operations:
construction, `push_p_param`, successful `set_p_param`, `clear_data`. -/
inductive Reachable : GcsSystem → Prop where
  | init : Reachable GcsSystem.init
  | push (s : GcsSystem) (value : ℝ) (fixed : Bool) :
      Reachable s → Reachable (push_p_param s value fixed).2
  | set (s s' : GcsSystem) (i : ℤ) (value : ℝ) (fixed : Bool) :
      Reachable s → set_p_param s i value fixed = .ok ((), s') → Reachable s'
  | clear (s : GcsSystem) : Reachable s → Reachable (clear_data s)

/-- C9: after every sequence of parameter-store operations, `p_params` and
`is_fixed` have equal length — every allocated slot has exactly one fixed
flag. -/
theorem store_vectors_same_length (s : GcsSystem) (h : Reachable s) :
    s.p_params.length = s.is_fixed.length := by
  induction h with
  | init => rfl
  | push s value fixed _ ih => simp [push_p_param, ih]
  | set s s' i value fixed _ heq ih =>
    unfold set_p_param at heq
    split_ifs at heq with h1 h2 h3
    · simp only [Except.ok.injEq, Prod.mk.injEq, true_and] at heq
      subst heq
      simp [ih]
  | clear s _ _ => rfl

/-- Witness for `store_vectors_same_length` after a push on the fresh
store. -/
theorem store_vectors_same_length_witness :
    (push_p_param GcsSystem.init 1 false).2.p_params.length
      = (push_p_param GcsSystem.init 1 false).2.is_fixed.length :=
  store_vectors_same_length _ (Reachable.push GcsSystem.init 1 false Reachable.init)

end Planegcs

namespace Planegcs

/-! ## Theorems about `solve_system` -/

theorem collect_free_params_eq (flags : List Bool) (l : List ℕ)
    (h : ∀ i ∈ l, i < flags.length) :
    collect_free_params flags l
      = .ok (l.filter (fun i => flags[i]? == some false)) := by
  induction l with
  | nil => rfl
  | cons i rest ih =>
    have hi : i < flags.length := h i (by simp)
    have hrest := ih (fun j hj => h j (by simp [hj]))
    rcases hob : flags[i]? with _ | b
    · rw [List.getElem?_eq_none_iff] at hob
      omega
    · unfold collect_free_params
      rw [hob, hrest]
      cases b <;> simp [List.filter_cons, hob]

/-- C3: under the store invariant, `solve_system` hands the external
`solve` call exactly the parameters whose fixed flag is false, as a list
of store indices in strictly increasing order. -/
theorem solve_passes_exactly_free_params (s : GcsSystem)
    (hlen : s.is_fixed.length = s.p_params.length) :
    ∃ L, solve_system_free_params s = .ok L
      ∧ List.Pairwise (· < ·) L
      ∧ (∀ i, i ∈ L ↔ i < s.p_params.length ∧ s.is_fixed[i]? = some false) := by
  refine ⟨(List.range s.p_params.length).filter
      (fun i => s.is_fixed[i]? == some false), ?_, ?_, ?_⟩
  · exact collect_free_params_eq _ _ (fun i hi => by
      simp only [List.mem_range] at hi
      omega)
  · exact List.Pairwise.sublist (List.filter_sublist _)
      (List.pairwise_lt_range _)
  · intro i
    simp [List.mem_filter, List.mem_range]

/-- Witness for `solve_passes_exactly_free_params` on a store with one
free and two fixed slots. -/
theorem solve_passes_exactly_free_params_witness :
    ∃ L, solve_system_free_params ⟨[1, 2, 3], [true, false, true]⟩ = .ok L
      ∧ List.Pairwise (· < ·) L
      ∧ (∀ i, i ∈ L
          ↔ i < (⟨[1, 2, 3], [true, false, true]⟩ : GcsSystem).p_params.length
            ∧ (⟨[1, 2, 3], [true, false, true]⟩ : GcsSystem).is_fixed[i]?
                = some false) :=
  solve_passes_exactly_free_params ⟨[1, 2, 3], [true, false, true]⟩ rfl

/-- C4: if any registered constraint is temporary, the effective solve
algorithm is SQP irrespective of the requested one; with no temporary
constraint the requested algorithm is used. -/
theorem temporary_constraints_force_sqp (constraints : List SketchConstraint)
    (alg : Algorithm) :
    ((∃ c ∈ constraints, c.temporary = true) →
        system_solve_algorithm constraints alg = .SQP)
    ∧ ((∀ c ∈ constraints, c.temporary = false) →
        system_solve_algorithm constraints alg = .Standard alg) := by
  constructor
  · rintro ⟨c, hc, ht⟩
    unfold system_solve_algorithm
    rw [if_pos (List.any_eq_true.mpr ⟨c, hc, ht⟩)]
  · intro h
    have hany : constraints.any (fun c => c.temporary) = false := by
      rw [List.any_eq_false]
      intro c hc
      simp [h c hc]
    unfold system_solve_algorithm
    rw [hany]
    rfl

/-- Witness for `temporary_constraints_force_sqp`: one temporary
constraint forces SQP; a non-temporary one leaves DogLeg in effect. -/
theorem temporary_constraints_force_sqp_witness :
    system_solve_algorithm [⟨true, true, 1, 0⟩] .DogLeg = .SQP
    ∧ system_solve_algorithm [⟨true, false, 1, 0⟩] .DogLeg
        = .Standard .DogLeg := by
  constructor
  · exact (temporary_constraints_force_sqp [⟨true, true, 1, 0⟩] .DogLeg).1
      ⟨⟨true, true, 1, 0⟩, List.mem_singleton_self _, rfl⟩
  · refine (temporary_constraints_force_sqp [⟨true, false, 1, 0⟩] .DogLeg).2 ?_
    intro c hc
    rw [List.mem_singleton.mp hc]

end Planegcs

namespace Planegcs

/-! ## Characterization of the geometry constructors -/

theorem make_point_ok {s : GcsSystem} {a b : ℤ}
    (ha : validIdx s a) (hb : validIdx s b) :
    make_point s a b = (.ok ⟨a, b⟩, s) := by
  simp only [make_point, ppf_ok ha, ppf_ok hb]

theorem make_point_err {s : GcsSystem} {a b : ℤ}
    (h : ¬(validIdx s a ∧ validIdx s b)) :
    make_point s a b = (.error .IndexOutOfRange, s) := by
  by_cases ha : validIdx s a
  · have hb : ¬ validIdx s b := fun hb => h ⟨ha, hb⟩
    simp only [make_point, ppf_ok ha, ppf_err hb]
  · simp only [make_point, ppf_err ha]

theorem make_line_ok {s : GcsSystem} {a b c d : ℤ}
    (h1 : validIdx s a) (h2 : validIdx s b)
    (h3 : validIdx s c) (h4 : validIdx s d) :
    make_line s a b c d = (.ok ⟨⟨a, b⟩, ⟨c, d⟩⟩, s) := by
  simp only [make_line, make_point_ok h1 h2, make_point_ok h3 h4]

theorem make_line_err {s : GcsSystem} {a b c d : ℤ}
    (h : ¬(validIdx s a ∧ validIdx s b ∧ validIdx s c ∧ validIdx s d)) :
    make_line s a b c d = (.error .IndexOutOfRange, s) := by
  by_cases h12 : validIdx s a ∧ validIdx s b
  · have h34 : ¬(validIdx s c ∧ validIdx s d) :=
      fun h34 => h ⟨h12.1, h12.2, h34.1, h34.2⟩
    simp only [make_line, make_point_ok h12.1 h12.2, make_point_err h34]
  · simp only [make_line, make_point_err h12]

end Planegcs

namespace Planegcs

theorem make_circle_ok {s : GcsSystem} {a b c : ℤ}
    (h1 : validIdx s a) (h2 : validIdx s b) (h3 : validIdx s c) :
    make_circle s a b c = (.ok ⟨⟨a, b⟩, c⟩, s) := by
  simp only [make_circle, make_point_ok h1 h2, ppf_ok h3]

theorem make_circle_err {s : GcsSystem} {a b c : ℤ}
    (h : ¬(validIdx s a ∧ validIdx s b ∧ validIdx s c)) :
    make_circle s a b c = (.error .IndexOutOfRange, s) := by
  by_cases h12 : validIdx s a ∧ validIdx s b
  · have h3 : ¬ validIdx s c := fun h3 => h ⟨h12.1, h12.2, h3⟩
    simp only [make_circle, make_point_ok h12.1 h12.2, ppf_err h3]
  · simp only [make_circle, make_point_err h12]

theorem make_ellipse_ok {s : GcsSystem} {a b c d e : ℤ}
    (h1 : validIdx s a) (h2 : validIdx s b) (h3 : validIdx s c)
    (h4 : validIdx s d) (h5 : validIdx s e) :
    make_ellipse s a b c d e = (.ok ⟨⟨a, b⟩, ⟨c, d⟩, e⟩, s) := by
  simp only [make_ellipse, make_point_ok h1 h2, make_point_ok h3 h4, ppf_ok h5]

theorem make_ellipse_err {s : GcsSystem} {a b c d e : ℤ}
    (h : ¬(validIdx s a ∧ validIdx s b ∧ validIdx s c ∧ validIdx s d
      ∧ validIdx s e)) :
    make_ellipse s a b c d e = (.error .IndexOutOfRange, s) := by
  by_cases h12 : validIdx s a ∧ validIdx s b
  · by_cases h34 : validIdx s c ∧ validIdx s d
    · have h5 : ¬ validIdx s e :=
        fun h5 => h ⟨h12.1, h12.2, h34.1, h34.2, h5⟩
      simp only [make_ellipse, make_point_ok h12.1 h12.2,
        make_point_ok h34.1 h34.2, ppf_err h5]
    · simp only [make_ellipse, make_point_ok h12.1 h12.2, make_point_err h34]
  · simp only [make_ellipse, make_point_err h12]

theorem make_hyperbola_ok {s : GcsSystem} {a b c d e : ℤ}
    (h1 : validIdx s a) (h2 : validIdx s b) (h3 : validIdx s c)
    (h4 : validIdx s d) (h5 : validIdx s e) :
    make_hyperbola s a b c d e = (.ok ⟨⟨a, b⟩, ⟨c, d⟩, e⟩, s) := by
  simp only [make_hyperbola, make_point_ok h1 h2, make_point_ok h3 h4, ppf_ok h5]

theorem make_hyperbola_err {s : GcsSystem} {a b c d e : ℤ}
    (h : ¬(validIdx s a ∧ validIdx s b ∧ validIdx s c ∧ validIdx s d
      ∧ validIdx s e)) :
    make_hyperbola s a b c d e = (.error .IndexOutOfRange, s) := by
  by_cases h12 : validIdx s a ∧ validIdx s b
  · by_cases h34 : validIdx s c ∧ validIdx s d
    · have h5 : ¬ validIdx s e :=
        fun h5 => h ⟨h12.1, h12.2, h34.1, h34.2, h5⟩
      simp only [make_hyperbola, make_point_ok h12.1 h12.2,
        make_point_ok h34.1 h34.2, ppf_err h5]
    · simp only [make_hyperbola, make_point_ok h12.1 h12.2, make_point_err h34]
  · simp only [make_hyperbola, make_point_err h12]

theorem make_parabola_ok {s : GcsSystem} {a b c d : ℤ}
    (h1 : validIdx s a) (h2 : validIdx s b)
    (h3 : validIdx s c) (h4 : validIdx s d) :
    make_parabola s a b c d = (.ok ⟨⟨a, b⟩, ⟨c, d⟩⟩, s) := by
  simp only [make_parabola, make_point_ok h3 h4, make_point_ok h1 h2]

theorem make_parabola_err {s : GcsSystem} {a b c d : ℤ}
    (h : ¬(validIdx s a ∧ validIdx s b ∧ validIdx s c ∧ validIdx s d)) :
    make_parabola s a b c d = (.error .IndexOutOfRange, s) := by
  by_cases h34 : validIdx s c ∧ validIdx s d
  · have h12 : ¬(validIdx s a ∧ validIdx s b) :=
      fun h12 => h ⟨h12.1, h12.2, h34.1, h34.2⟩
    simp only [make_parabola, make_point_ok h34.1 h34.2, make_point_err h12]
  · simp only [make_parabola, make_point_err h34]

theorem make_arc_ok {s : GcsSystem} {a1 a2 a3 a4 a5 a6 a7 a8 a9 : ℤ}
    (h1 : validIdx s a1) (h2 : validIdx s a2) (h3 : validIdx s a3)
    (h4 : validIdx s a4) (h5 : validIdx s a5) (h6 : validIdx s a6)
    (h7 : validIdx s a7) (h8 : validIdx s a8) (h9 : validIdx s a9) :
    make_arc s a1 a2 a3 a4 a5 a6 a7 a8 a9
      = (.ok ⟨⟨a1, a2⟩, ⟨a3, a4⟩, ⟨a5, a6⟩, a7, a8, a9⟩, s) := by
  simp only [make_arc, make_point_ok h1 h2, make_point_ok h3 h4,
    make_point_ok h5 h6, ppf_ok h7, ppf_ok h8, ppf_ok h9]

theorem make_arc_err {s : GcsSystem} {a1 a2 a3 a4 a5 a6 a7 a8 a9 : ℤ}
    (h : ¬(validIdx s a1 ∧ validIdx s a2 ∧ validIdx s a3 ∧ validIdx s a4
      ∧ validIdx s a5 ∧ validIdx s a6 ∧ validIdx s a7 ∧ validIdx s a8
      ∧ validIdx s a9)) :
    make_arc s a1 a2 a3 a4 a5 a6 a7 a8 a9 = (.error .IndexOutOfRange, s) := by
  by_cases h12 : validIdx s a1 ∧ validIdx s a2
  · by_cases h34 : validIdx s a3 ∧ validIdx s a4
    · by_cases h56 : validIdx s a5 ∧ validIdx s a6
      · by_cases h7 : validIdx s a7
        · by_cases h8 : validIdx s a8
          · have h9 : ¬ validIdx s a9 := fun h9 =>
              h ⟨h12.1, h12.2, h34.1, h34.2, h56.1, h56.2, h7, h8, h9⟩
            simp only [make_arc, make_point_ok h12.1 h12.2,
              make_point_ok h34.1 h34.2, make_point_ok h56.1 h56.2,
              ppf_ok h7, ppf_ok h8, ppf_err h9]
          · simp only [make_arc, make_point_ok h12.1 h12.2,
              make_point_ok h34.1 h34.2, make_point_ok h56.1 h56.2,
              ppf_ok h7, ppf_err h8]
        · simp only [make_arc, make_point_ok h12.1 h12.2,
            make_point_ok h34.1 h34.2, make_point_ok h56.1 h56.2, ppf_err h7]
      · simp only [make_arc, make_point_ok h12.1 h12.2,
          make_point_ok h34.1 h34.2, make_point_err h56]
    · simp only [make_arc, make_point_ok h12.1 h12.2, make_point_err h34]
  · simp only [make_arc, make_point_err h12]

end Planegcs

namespace Planegcs

theorem make_arc_of_ellipse_ok {s : GcsSystem}
    {a1 a2 a3 a4 a5 a6 a7 a8 a9 a10 a11 : ℤ}
    (h1 : validIdx s a1) (h2 : validIdx s a2) (h3 : validIdx s a3)
    (h4 : validIdx s a4) (h5 : validIdx s a5) (h6 : validIdx s a6)
    (h7 : validIdx s a7) (h8 : validIdx s a8) (h9 : validIdx s a9)
    (h10 : validIdx s a10) (h11 : validIdx s a11) :
    make_arc_of_ellipse s a1 a2 a3 a4 a5 a6 a7 a8 a9 a10 a11
      = (.ok ⟨⟨a1, a2⟩, ⟨a5, a6⟩, ⟨a7, a8⟩, ⟨a3, a4⟩, a9, a10, a11⟩, s) := by
  simp only [make_arc_of_ellipse, make_point_ok h1 h2, make_point_ok h5 h6,
    ppf_ok h9, make_point_ok h7 h8, ppf_ok h10, ppf_ok h11,
    make_point_ok h3 h4]

theorem make_arc_of_ellipse_err {s : GcsSystem}
    {a1 a2 a3 a4 a5 a6 a7 a8 a9 a10 a11 : ℤ}
    (h : ¬(validIdx s a1 ∧ validIdx s a2 ∧ validIdx s a3 ∧ validIdx s a4
      ∧ validIdx s a5 ∧ validIdx s a6 ∧ validIdx s a7 ∧ validIdx s a8
      ∧ validIdx s a9 ∧ validIdx s a10 ∧ validIdx s a11)) :
    make_arc_of_ellipse s a1 a2 a3 a4 a5 a6 a7 a8 a9 a10 a11
      = (.error .IndexOutOfRange, s) := by
  by_cases h12 : validIdx s a1 ∧ validIdx s a2
  · by_cases h56 : validIdx s a5 ∧ validIdx s a6
    · by_cases h9 : validIdx s a9
      · by_cases h78 : validIdx s a7 ∧ validIdx s a8
        · by_cases h10 : validIdx s a10
          · by_cases h11 : validIdx s a11
            · have h34 : ¬(validIdx s a3 ∧ validIdx s a4) := fun h34 =>
                h ⟨h12.1, h12.2, h34.1, h34.2, h56.1, h56.2, h78.1, h78.2,
                  h9, h10, h11⟩
              simp only [make_arc_of_ellipse, make_point_ok h12.1 h12.2,
                make_point_ok h56.1 h56.2, ppf_ok h9,
                make_point_ok h78.1 h78.2, ppf_ok h10, ppf_ok h11,
                make_point_err h34]
            · simp only [make_arc_of_ellipse, make_point_ok h12.1 h12.2,
                make_point_ok h56.1 h56.2, ppf_ok h9,
                make_point_ok h78.1 h78.2, ppf_ok h10, ppf_err h11]
          · simp only [make_arc_of_ellipse, make_point_ok h12.1 h12.2,
              make_point_ok h56.1 h56.2, ppf_ok h9,
              make_point_ok h78.1 h78.2, ppf_err h10]
        · simp only [make_arc_of_ellipse, make_point_ok h12.1 h12.2,
            make_point_ok h56.1 h56.2, ppf_ok h9, make_point_err h78]
      · simp only [make_arc_of_ellipse, make_point_ok h12.1 h12.2,
          make_point_ok h56.1 h56.2, ppf_err h9]
    · simp only [make_arc_of_ellipse, make_point_ok h12.1 h12.2,
        make_point_err h56]
  · simp only [make_arc_of_ellipse, make_point_err h12]

theorem make_arc_of_parabola_ok {s : GcsSystem}
    {a1 a2 a3 a4 a5 a6 a7 a8 a9 a10 : ℤ}
    (h1 : validIdx s a1) (h2 : validIdx s a2) (h3 : validIdx s a3)
    (h4 : validIdx s a4) (h5 : validIdx s a5) (h6 : validIdx s a6)
    (h7 : validIdx s a7) (h8 : validIdx s a8) (h9 : validIdx s a9)
    (h10 : validIdx s a10) :
    make_arc_of_parabola s a1 a2 a3 a4 a5 a6 a7 a8 a9 a10
      = (.ok ⟨⟨a5, a6⟩, ⟨a7, a8⟩, ⟨a3, a4⟩, ⟨a1, a2⟩, a9, a10⟩, s) := by
  simp only [make_arc_of_parabola, make_point_ok h5 h6, ppf_ok h9,
    make_point_ok h7 h8, ppf_ok h10, make_point_ok h3 h4,
    make_point_ok h1 h2]

theorem make_arc_of_parabola_err {s : GcsSystem}
    {a1 a2 a3 a4 a5 a6 a7 a8 a9 a10 : ℤ}
    (h : ¬(validIdx s a1 ∧ validIdx s a2 ∧ validIdx s a3 ∧ validIdx s a4
      ∧ validIdx s a5 ∧ validIdx s a6 ∧ validIdx s a7 ∧ validIdx s a8
      ∧ validIdx s a9 ∧ validIdx s a10)) :
    make_arc_of_parabola s a1 a2 a3 a4 a5 a6 a7 a8 a9 a10
      = (.error .IndexOutOfRange, s) := by
  by_cases h56 : validIdx s a5 ∧ validIdx s a6
  · by_cases h9 : validIdx s a9
    · by_cases h78 : validIdx s a7 ∧ validIdx s a8
      · by_cases h10 : validIdx s a10
        · by_cases h34 : validIdx s a3 ∧ validIdx s a4
          · have h12 : ¬(validIdx s a1 ∧ validIdx s a2) := fun h12 =>
              h ⟨h12.1, h12.2, h34.1, h34.2, h56.1, h56.2, h78.1, h78.2,
                h9, h10⟩
            simp only [make_arc_of_parabola, make_point_ok h56.1 h56.2,
              ppf_ok h9, make_point_ok h78.1 h78.2, ppf_ok h10,
              make_point_ok h34.1 h34.2, make_point_err h12]
          · simp only [make_arc_of_parabola, make_point_ok h56.1 h56.2,
              ppf_ok h9, make_point_ok h78.1 h78.2, ppf_ok h10,
              make_point_err h34]
        · simp only [make_arc_of_parabola, make_point_ok h56.1 h56.2,
            ppf_ok h9, make_point_ok h78.1 h78.2, ppf_err h10]
      · simp only [make_arc_of_parabola, make_point_ok h56.1 h56.2,
          ppf_ok h9, make_point_err h78]
    · simp only [make_arc_of_parabola, make_point_ok h56.1 h56.2, ppf_err h9]
  · simp only [make_arc_of_parabola, make_point_err h56]

theorem make_arc_of_hyperbola_ok {s : GcsSystem}
    {a1 a2 a3 a4 a5 a6 a7 a8 a9 a10 a11 : ℤ}
    (h1 : validIdx s a1) (h2 : validIdx s a2) (h3 : validIdx s a3)
    (h4 : validIdx s a4) (h5 : validIdx s a5) (h6 : validIdx s a6)
    (h7 : validIdx s a7) (h8 : validIdx s a8) (h9 : validIdx s a9)
    (h10 : validIdx s a10) (h11 : validIdx s a11) :
    make_arc_of_hyperbola s a1 a2 a3 a4 a5 a6 a7 a8 a9 a10 a11
      = (.ok ⟨⟨a1, a2⟩, ⟨a5, a6⟩, ⟨a7, a8⟩, ⟨a3, a4⟩, a9, a10, a11⟩, s) := by
  simp only [make_arc_of_hyperbola, make_point_ok h1 h2, make_point_ok h5 h6,
    ppf_ok h9, make_point_ok h7 h8, ppf_ok h10, ppf_ok h11,
    make_point_ok h3 h4]

theorem make_arc_of_hyperbola_err {s : GcsSystem}
    {a1 a2 a3 a4 a5 a6 a7 a8 a9 a10 a11 : ℤ}
    (h : ¬(validIdx s a1 ∧ validIdx s a2 ∧ validIdx s a3 ∧ validIdx s a4
      ∧ validIdx s a5 ∧ validIdx s a6 ∧ validIdx s a7 ∧ validIdx s a8
      ∧ validIdx s a9 ∧ validIdx s a10 ∧ validIdx s a11)) :
    make_arc_of_hyperbola s a1 a2 a3 a4 a5 a6 a7 a8 a9 a10 a11
      = (.error .IndexOutOfRange, s) := by
  by_cases h12 : validIdx s a1 ∧ validIdx s a2
  · by_cases h56 : validIdx s a5 ∧ validIdx s a6
    · by_cases h9 : validIdx s a9
      · by_cases h78 : validIdx s a7 ∧ validIdx s a8
        · by_cases h10 : validIdx s a10
          · by_cases h11 : validIdx s a11
            · have h34 : ¬(validIdx s a3 ∧ validIdx s a4) := fun h34 =>
                h ⟨h12.1, h12.2, h34.1, h34.2, h56.1, h56.2, h78.1, h78.2,
                  h9, h10, h11⟩
              simp only [make_arc_of_hyperbola, make_point_ok h12.1 h12.2,
                make_point_ok h56.1 h56.2, ppf_ok h9,
                make_point_ok h78.1 h78.2, ppf_ok h10, ppf_ok h11,
                make_point_err h34]
            · simp only [make_arc_of_hyperbola, make_point_ok h12.1 h12.2,
                make_point_ok h56.1 h56.2, ppf_ok h9,
                make_point_ok h78.1 h78.2, ppf_ok h10, ppf_err h11]
          · simp only [make_arc_of_hyperbola, make_point_ok h12.1 h12.2,
              make_point_ok h56.1 h56.2, ppf_ok h9,
              make_point_ok h78.1 h78.2, ppf_err h10]
        · simp only [make_arc_of_hyperbola, make_point_ok h12.1 h12.2,
            make_point_ok h56.1 h56.2, ppf_ok h9, make_point_err h78]
      · simp only [make_arc_of_hyperbola, make_point_ok h12.1 h12.2,
          make_point_ok h56.1 h56.2, ppf_err h9]
    · simp only [make_arc_of_hyperbola, make_point_ok h12.1 h12.2,
        make_point_err h56]
  · simp only [make_arc_of_hyperbola, make_point_err h12]

end Planegcs

namespace Planegcs

theorem p_params_or_fail_ok {s : GcsSystem} {l : List ℤ}
    (h : ∀ i ∈ l, validIdx s i) : p_params_or_fail s l = .ok l := by
  induction l with
  | nil => rfl
  | cons i rest ih =>
    simp only [p_params_or_fail, ppf_ok (h i (by simp)),
      ih (fun j hj => h j (by simp [hj]))]

theorem p_params_or_fail_err {s : GcsSystem} {l : List ℤ}
    (h : ¬ ∀ i ∈ l, validIdx s i) :
    p_params_or_fail s l = .error .IndexOutOfRange := by
  induction l with
  | nil => exact absurd (fun i hi => absurd hi (List.not_mem_nil i)) h
  | cons i rest ih =>
    by_cases hi : validIdx s i
    · have hr : ¬ ∀ j ∈ rest, validIdx s j := by
        intro hr
        exact h (fun j hj => by
          rcases List.mem_cons.mp hj with h' | h'
          · rw [h']; exact hi
          · exact hr j h')
      simp only [p_params_or_fail, ppf_ok hi, ih hr]
    · simp only [p_params_or_fail, ppf_err hi]

theorem make_poles_even_ok (s : GcsSystem) : ∀ (l : List ℤ), Even l.length →
    (∀ i ∈ l, validIdx s i) →
    ∃ ps, make_poles s l = .ok ps
      ∧ 2 * ps.length = l.length
      ∧ (∀ (j : ℕ) (xi yi : ℤ), l[2 * j]? = some xi →
          l[2 * j + 1]? = some yi → ps[j]? = some ⟨xi, yi⟩)
  | [], _, _ => ⟨[], rfl, rfl, by intro j xi yi h1 _; simp at h1⟩
  | [x], he, _ => absurd he (by simp [Nat.even_iff])
  | x :: y :: rest, he, hv => by
    have hx : validIdx s x := hv x (by simp)
    have hy : validIdx s y := hv y (by simp)
    have he' : Even rest.length := by
      simp only [List.length_cons] at he
      rw [Nat.even_iff] at he ⊢
      omega
    obtain ⟨ps, hps, hlen, hpair⟩ := make_poles_even_ok s rest he'
      (fun i hi => hv i (by simp [hi]))
    refine ⟨⟨x, y⟩ :: ps, ?_, ?_, ?_⟩
    · simp only [make_poles, make_point_ok hx hy, hps]
    · simp only [List.length_cons]
      omega
    · intro j xi yi h1 h2
      cases j with
      | zero =>
        have hx' : xi = x := by simpa using h1.symm
        have hy' : yi = y := by simpa using h2.symm
        simp [hx', hy']
      | succ k =>
        have e1 : 2 * (k + 1) = 2 * k + 1 + 1 := by ring
        rw [e1, List.getElem?_cons_succ, List.getElem?_cons_succ] at h1
        have e2 : 2 * (k + 1) + 1 = 2 * k + 1 + 1 + 1 := by ring
        rw [e2, List.getElem?_cons_succ, List.getElem?_cons_succ] at h2
        simpa using hpair k xi yi h1 h2

theorem make_poles_odd_ub (s : GcsSystem) : ∀ (l : List ℤ), ¬ Even l.length →
    (∀ i ∈ l, validIdx s i) → make_poles s l = .error .UndefinedBehavior
  | [], h, _ => absurd even_zero h
  | [_], _, _ => rfl
  | x :: y :: rest, h, hv => by
    have h' : ¬ Even rest.length := by
      simp only [List.length_cons] at h
      rw [Nat.even_iff] at h ⊢
      omega
    simp only [make_poles, make_point_ok (hv x (by simp)) (hv y (by simp)),
      make_poles_odd_ub s rest h' (fun i hi => hv i (by simp [hi]))]

theorem make_poles_even_err (s : GcsSystem) : ∀ (l : List ℤ), Even l.length →
    (¬ ∀ i ∈ l, validIdx s i) → make_poles s l = .error .IndexOutOfRange
  | [], _, hv => absurd (fun i hi => absurd hi (List.not_mem_nil i)) hv
  | [_], he, _ => absurd he (by simp [Nat.even_iff])
  | x :: y :: rest, he, hv => by
    have he' : Even rest.length := by
      simp only [List.length_cons] at he
      rw [Nat.even_iff] at he ⊢
      omega
    by_cases hxy : validIdx s x ∧ validIdx s y
    · have hr : ¬ ∀ i ∈ rest, validIdx s i := by
        intro hr
        exact hv (fun i hi => by
          rcases List.mem_cons.mp hi with h' | h'
          · rw [h']; exact hxy.1
          · rcases List.mem_cons.mp h' with h'' | h''
            · rw [h'']; exact hxy.2
            · exact hr i h'')
      simp only [make_poles, make_point_ok hxy.1 hxy.2,
        make_poles_even_err s rest he' hr]
    · simp only [make_poles, make_point_err hxy]

theorem make_bspline_ok {s : GcsSystem} {sx sy ex ey : ℤ}
    {poles ws ks mult : List ℤ} {deg : ℤ} {per : Bool} {pl : List Point}
    (h1 : validIdx s sx) (h2 : validIdx s sy)
    (h3 : validIdx s ex) (h4 : validIdx s ey)
    (hpl : make_poles s poles = .ok pl)
    (hws : ∀ i ∈ ws, validIdx s i) (hks : ∀ i ∈ ks, validIdx s i) :
    make_bspline s sx sy ex ey poles ws ks mult deg per
      = (.ok ⟨⟨sx, sy⟩, ⟨ex, ey⟩, deg, per, mult, pl, ws, ks⟩, s) := by
  simp only [make_bspline, make_point_ok h1 h2, make_point_ok h3 h4, hpl,
    p_params_or_fail_ok hws, p_params_or_fail_ok hks]

theorem make_bspline_err {s : GcsSystem} {sx sy ex ey : ℤ}
    {poles ws ks mult : List ℤ} {deg : ℤ} {per : Bool}
    (heven : Even poles.length)
    (h : ¬(validIdx s sx ∧ validIdx s sy ∧ validIdx s ex ∧ validIdx s ey
      ∧ (∀ i ∈ poles, validIdx s i) ∧ (∀ i ∈ ws, validIdx s i)
      ∧ (∀ i ∈ ks, validIdx s i))) :
    make_bspline s sx sy ex ey poles ws ks mult deg per
      = (.error .IndexOutOfRange, s) := by
  by_cases h12 : validIdx s sx ∧ validIdx s sy
  · by_cases h34 : validIdx s ex ∧ validIdx s ey
    · by_cases hp : ∀ i ∈ poles, validIdx s i
      · obtain ⟨pl, hpl, -, -⟩ := make_poles_even_ok s poles heven hp
        by_cases hw : ∀ i ∈ ws, validIdx s i
        · have hk : ¬ ∀ i ∈ ks, validIdx s i := fun hk =>
            h ⟨h12.1, h12.2, h34.1, h34.2, hp, hw, hk⟩
          simp only [make_bspline, make_point_ok h12.1 h12.2,
            make_point_ok h34.1 h34.2, hpl, p_params_or_fail_ok hw,
            p_params_or_fail_err hk]
        · simp only [make_bspline, make_point_ok h12.1 h12.2,
            make_point_ok h34.1 h34.2, hpl, p_params_or_fail_err hw]
      · simp only [make_bspline, make_point_ok h12.1 h12.2,
          make_point_ok h34.1 h34.2, make_poles_even_err s poles heven hp]
    · simp only [make_bspline, make_point_ok h12.1 h12.2, make_point_err h34]
  · simp only [make_bspline, make_point_err h12]

end Planegcs

namespace Planegcs

/-- C5: every `make_<geometry>` operation routes each passed parameter
index through `p_param_or_fail`: with all indices allocated it succeeds,
and with any unallocated index it fails with the propagated
IndexOutOfRange error; in both cases the returned store is the unchanged
input store. For `make_bspline` the pole list is taken of even length,
the well-formedness precondition its loop leaves unchecked. -/
theorem constructors_propagate_index_errors (s : GcsSystem) :
    (∀ a b : ℤ,
      ((validIdx s a ∧ validIdx s b) → ∃ g, make_point s a b = (.ok g, s))
      ∧ (¬(validIdx s a ∧ validIdx s b) →
          make_point s a b = (.error .IndexOutOfRange, s)))
    ∧ (∀ a b c d : ℤ,
      ((validIdx s a ∧ validIdx s b ∧ validIdx s c ∧ validIdx s d) →
          ∃ g, make_line s a b c d = (.ok g, s))
      ∧ (¬(validIdx s a ∧ validIdx s b ∧ validIdx s c ∧ validIdx s d) →
          make_line s a b c d = (.error .IndexOutOfRange, s)))
    ∧ (∀ a b c : ℤ,
      ((validIdx s a ∧ validIdx s b ∧ validIdx s c) →
          ∃ g, make_circle s a b c = (.ok g, s))
      ∧ (¬(validIdx s a ∧ validIdx s b ∧ validIdx s c) →
          make_circle s a b c = (.error .IndexOutOfRange, s)))
    ∧ (∀ a b c d e : ℤ,
      ((validIdx s a ∧ validIdx s b ∧ validIdx s c ∧ validIdx s d
            ∧ validIdx s e) →
          ∃ g, make_ellipse s a b c d e = (.ok g, s))
      ∧ (¬(validIdx s a ∧ validIdx s b ∧ validIdx s c ∧ validIdx s d
            ∧ validIdx s e) →
          make_ellipse s a b c d e = (.error .IndexOutOfRange, s)))
    ∧ (∀ a b c d e : ℤ,
      ((validIdx s a ∧ validIdx s b ∧ validIdx s c ∧ validIdx s d
            ∧ validIdx s e) →
          ∃ g, make_hyperbola s a b c d e = (.ok g, s))
      ∧ (¬(validIdx s a ∧ validIdx s b ∧ validIdx s c ∧ validIdx s d
            ∧ validIdx s e) →
          make_hyperbola s a b c d e = (.error .IndexOutOfRange, s)))
    ∧ (∀ a b c d : ℤ,
      ((validIdx s a ∧ validIdx s b ∧ validIdx s c ∧ validIdx s d) →
          ∃ g, make_parabola s a b c d = (.ok g, s))
      ∧ (¬(validIdx s a ∧ validIdx s b ∧ validIdx s c ∧ validIdx s d) →
          make_parabola s a b c d = (.error .IndexOutOfRange, s)))
    ∧ (∀ a1 a2 a3 a4 a5 a6 a7 a8 a9 : ℤ,
      ((validIdx s a1 ∧ validIdx s a2 ∧ validIdx s a3 ∧ validIdx s a4
            ∧ validIdx s a5 ∧ validIdx s a6 ∧ validIdx s a7 ∧ validIdx s a8
            ∧ validIdx s a9) →
          ∃ g, make_arc s a1 a2 a3 a4 a5 a6 a7 a8 a9 = (.ok g, s))
      ∧ (¬(validIdx s a1 ∧ validIdx s a2 ∧ validIdx s a3 ∧ validIdx s a4
            ∧ validIdx s a5 ∧ validIdx s a6 ∧ validIdx s a7 ∧ validIdx s a8
            ∧ validIdx s a9) →
          make_arc s a1 a2 a3 a4 a5 a6 a7 a8 a9
            = (.error .IndexOutOfRange, s)))
    ∧ (∀ a1 a2 a3 a4 a5 a6 a7 a8 a9 a10 a11 : ℤ,
      ((validIdx s a1 ∧ validIdx s a2 ∧ validIdx s a3 ∧ validIdx s a4
            ∧ validIdx s a5 ∧ validIdx s a6 ∧ validIdx s a7 ∧ validIdx s a8
            ∧ validIdx s a9 ∧ validIdx s a10 ∧ validIdx s a11) →
          ∃ g, make_arc_of_ellipse s a1 a2 a3 a4 a5 a6 a7 a8 a9 a10 a11
            = (.ok g, s))
      ∧ (¬(validIdx s a1 ∧ validIdx s a2 ∧ validIdx s a3 ∧ validIdx s a4
            ∧ validIdx s a5 ∧ validIdx s a6 ∧ validIdx s a7 ∧ validIdx s a8
            ∧ validIdx s a9 ∧ validIdx s a10 ∧ validIdx s a11) →
          make_arc_of_ellipse s a1 a2 a3 a4 a5 a6 a7 a8 a9 a10 a11
            = (.error .IndexOutOfRange, s)))
    ∧ (∀ a1 a2 a3 a4 a5 a6 a7 a8 a9 a10 : ℤ,
      ((validIdx s a1 ∧ validIdx s a2 ∧ validIdx s a3 ∧ validIdx s a4
            ∧ validIdx s a5 ∧ validIdx s a6 ∧ validIdx s a7 ∧ validIdx s a8
            ∧ validIdx s a9 ∧ validIdx s a10) →
          ∃ g, make_arc_of_parabola s a1 a2 a3 a4 a5 a6 a7 a8 a9 a10
            = (.ok g, s))
      ∧ (¬(validIdx s a1 ∧ validIdx s a2 ∧ validIdx s a3 ∧ validIdx s a4
            ∧ validIdx s a5 ∧ validIdx s a6 ∧ validIdx s a7 ∧ validIdx s a8
            ∧ validIdx s a9 ∧ validIdx s a10) →
          make_arc_of_parabola s a1 a2 a3 a4 a5 a6 a7 a8 a9 a10
            = (.error .IndexOutOfRange, s)))
    ∧ (∀ a1 a2 a3 a4 a5 a6 a7 a8 a9 a10 a11 : ℤ,
      ((validIdx s a1 ∧ validIdx s a2 ∧ validIdx s a3 ∧ validIdx s a4
            ∧ validIdx s a5 ∧ validIdx s a6 ∧ validIdx s a7 ∧ validIdx s a8
            ∧ validIdx s a9 ∧ validIdx s a10 ∧ validIdx s a11) →
          ∃ g, make_arc_of_hyperbola s a1 a2 a3 a4 a5 a6 a7 a8 a9 a10 a11
            = (.ok g, s))
      ∧ (¬(validIdx s a1 ∧ validIdx s a2 ∧ validIdx s a3 ∧ validIdx s a4
            ∧ validIdx s a5 ∧ validIdx s a6 ∧ validIdx s a7 ∧ validIdx s a8
            ∧ validIdx s a9 ∧ validIdx s a10 ∧ validIdx s a11) →
          make_arc_of_hyperbola s a1 a2 a3 a4 a5 a6 a7 a8 a9 a10 a11
            = (.error .IndexOutOfRange, s)))
    ∧ (∀ (sx sy ex ey : ℤ) (poles ws ks mult : List ℤ) (deg : ℤ) (per : Bool),
      Even poles.length →
      ((validIdx s sx ∧ validIdx s sy ∧ validIdx s ex ∧ validIdx s ey
            ∧ (∀ i ∈ poles, validIdx s i) ∧ (∀ i ∈ ws, validIdx s i)
            ∧ (∀ i ∈ ks, validIdx s i)) →
          ∃ g, make_bspline s sx sy ex ey poles ws ks mult deg per
            = (.ok g, s))
      ∧ (¬(validIdx s sx ∧ validIdx s sy ∧ validIdx s ex ∧ validIdx s ey
            ∧ (∀ i ∈ poles, validIdx s i) ∧ (∀ i ∈ ws, validIdx s i)
            ∧ (∀ i ∈ ks, validIdx s i)) →
          make_bspline s sx sy ex ey poles ws ks mult deg per
            = (.error .IndexOutOfRange, s))) := by
  refine ⟨?_, ?_, ?_, ?_, ?_, ?_, ?_, ?_, ?_, ?_, ?_⟩
  · intro a b
    exact ⟨fun h => ⟨_, make_point_ok h.1 h.2⟩, make_point_err⟩
  · intro a b c d
    refine ⟨?_, make_line_err⟩
    rintro ⟨h1, h2, h3, h4⟩
    exact ⟨_, make_line_ok h1 h2 h3 h4⟩
  · intro a b c
    refine ⟨?_, make_circle_err⟩
    rintro ⟨h1, h2, h3⟩
    exact ⟨_, make_circle_ok h1 h2 h3⟩
  · intro a b c d e
    refine ⟨?_, make_ellipse_err⟩
    rintro ⟨h1, h2, h3, h4, h5⟩
    exact ⟨_, make_ellipse_ok h1 h2 h3 h4 h5⟩
  · intro a b c d e
    refine ⟨?_, make_hyperbola_err⟩
    rintro ⟨h1, h2, h3, h4, h5⟩
    exact ⟨_, make_hyperbola_ok h1 h2 h3 h4 h5⟩
  · intro a b c d
    refine ⟨?_, make_parabola_err⟩
    rintro ⟨h1, h2, h3, h4⟩
    exact ⟨_, make_parabola_ok h1 h2 h3 h4⟩
  · intro a1 a2 a3 a4 a5 a6 a7 a8 a9
    refine ⟨?_, make_arc_err⟩
    rintro ⟨h1, h2, h3, h4, h5, h6, h7, h8, h9⟩
    exact ⟨_, make_arc_ok h1 h2 h3 h4 h5 h6 h7 h8 h9⟩
  · intro a1 a2 a3 a4 a5 a6 a7 a8 a9 a10 a11
    refine ⟨?_, make_arc_of_ellipse_err⟩
    rintro ⟨h1, h2, h3, h4, h5, h6, h7, h8, h9, h10, h11⟩
    exact ⟨_, make_arc_of_ellipse_ok h1 h2 h3 h4 h5 h6 h7 h8 h9 h10 h11⟩
  · intro a1 a2 a3 a4 a5 a6 a7 a8 a9 a10
    refine ⟨?_, make_arc_of_parabola_err⟩
    rintro ⟨h1, h2, h3, h4, h5, h6, h7, h8, h9, h10⟩
    exact ⟨_, make_arc_of_parabola_ok h1 h2 h3 h4 h5 h6 h7 h8 h9 h10⟩
  · intro a1 a2 a3 a4 a5 a6 a7 a8 a9 a10 a11
    refine ⟨?_, make_arc_of_hyperbola_err⟩
    rintro ⟨h1, h2, h3, h4, h5, h6, h7, h8, h9, h10, h11⟩
    exact ⟨_, make_arc_of_hyperbola_ok h1 h2 h3 h4 h5 h6 h7 h8 h9 h10 h11⟩
  · intro sx sy ex ey poles ws ks mult deg per heven
    refine ⟨?_, make_bspline_err heven⟩
    rintro ⟨h1, h2, h3, h4, hp, hw, hk⟩
    obtain ⟨pl, hpl, -, -⟩ := make_poles_even_ok s poles heven hp
    exact ⟨_, make_bspline_ok h1 h2 h3 h4 hpl hw hk⟩

/-- Witness for `constructors_propagate_index_errors` on a two-slot
store: a valid and an invalid `make_point`, an invalid `make_line`, and a
valid `make_bspline`. -/
theorem constructors_propagate_index_errors_witness :
    (∃ g, make_point ⟨[0, 0], [false, false]⟩ 0 1
        = (.ok g, ⟨[0, 0], [false, false]⟩))
    ∧ make_point ⟨[0, 0], [false, false]⟩ 0 5
        = (.error .IndexOutOfRange, ⟨[0, 0], [false, false]⟩)
    ∧ make_line ⟨[0, 0], [false, false]⟩ 0 1 2 0
        = (.error .IndexOutOfRange, ⟨[0, 0], [false, false]⟩)
    ∧ (∃ g, make_bspline ⟨[0, 0], [false, false]⟩ 0 1 0 1 [0, 1] [0] [1] [4] 3
          false = (.ok g, ⟨[0, 0], [false, false]⟩)) := by
  have h := constructors_propagate_index_errors ⟨[0, 0], [false, false]⟩
  refine ⟨(h.1 0 1).1 (by decide), (h.1 0 5).2 (by decide),
    (h.2.1 0 1 2 0).2 (by decide), ?_⟩
  exact (h.2.2.2.2.2.2.2.2.2.2 0 1 0 1 [0, 1] [0] [1] [4] 3 false
    (by simp [Nat.even_iff])).1 (by decide)

/-- C10: `make_bspline` consumes `poles_xy_i` pairwise — for an
even-length list of `2*n` valid indices it builds exactly `n` poles, the
`j`-th pole taking element `2*j` as its x pointer and element `2*j + 1`
as its y pointer; for an odd-length list the last iteration reads one
element past the end of the vector, which is undefined behavior, so even
length is an unchecked precondition. -/
theorem make_bspline_consumes_poles_pairwise (s : GcsSystem)
    (sx sy ex ey : ℤ) (poles ws ks mult : List ℤ) (deg : ℤ) (per : Bool)
    (h1 : validIdx s sx) (h2 : validIdx s sy)
    (h3 : validIdx s ex) (h4 : validIdx s ey)
    (hp : ∀ i ∈ poles, validIdx s i)
    (hw : ∀ i ∈ ws, validIdx s i) (hk : ∀ i ∈ ks, validIdx s i) :
    (Even poles.length →
      ∃ bs, make_bspline s sx sy ex ey poles ws ks mult deg per = (.ok bs, s)
        ∧ 2 * bs.poles.length = poles.length
        ∧ (∀ (j : ℕ) (xi yi : ℤ), poles[2 * j]? = some xi →
            poles[2 * j + 1]? = some yi → bs.poles[j]? = some ⟨xi, yi⟩))
    ∧ (¬ Even poles.length →
      make_bspline s sx sy ex ey poles ws ks mult deg per
        = (.error .UndefinedBehavior, s)) := by
  constructor
  · intro he
    obtain ⟨pl, hpl, hlen, hpair⟩ := make_poles_even_ok s poles he hp
    refine ⟨⟨⟨sx, sy⟩, ⟨ex, ey⟩, deg, per, mult, pl, ws, ks⟩,
      make_bspline_ok h1 h2 h3 h4 hpl hw hk, ?_, ?_⟩
    · exact hlen
    · exact hpair
  · intro ho
    simp only [make_bspline, make_point_ok h1 h2, make_point_ok h3 h4,
      make_poles_odd_ub s poles ho hp]

/-- Witness for `make_bspline_consumes_poles_pairwise`: a four-index pole
list yields two poles; a one-index pole list is undefined behavior. -/
theorem make_bspline_consumes_poles_pairwise_witness :
    (∃ bs, make_bspline ⟨[0, 0, 0, 0], [false, false, false, false]⟩
          0 1 2 3 [0, 1, 2, 3] [0] [1] [4] 3 false
        = (.ok bs, ⟨[0, 0, 0, 0], [false, false, false, false]⟩)
        ∧ 2 * bs.poles.length = ([0, 1, 2, 3] : List ℤ).length
        ∧ (∀ (j : ℕ) (xi yi : ℤ), ([0, 1, 2, 3] : List ℤ)[2 * j]? = some xi →
            ([0, 1, 2, 3] : List ℤ)[2 * j + 1]? = some yi →
            bs.poles[j]? = some ⟨xi, yi⟩))
    ∧ make_bspline ⟨[0, 0, 0, 0], [false, false, false, false]⟩
        0 1 2 3 [0] [0] [1] [4] 3 false
      = (.error .UndefinedBehavior, ⟨[0, 0, 0, 0], [false, false, false, false]⟩) := by
  constructor
  · exact (make_bspline_consumes_poles_pairwise _ 0 1 2 3 [0, 1, 2, 3] [0] [1]
      [4] 3 false (by decide) (by decide) (by decide) (by decide) (by decide)
      (by decide) (by decide)).1 (by simp [Nat.even_iff])
  · exact (make_bspline_consumes_poles_pairwise _ 0 1 2 3 [0] [0] [1]
      [4] 3 false (by decide) (by decide) (by decide) (by decide) (by decide)
      (by decide) (by decide)).2 (by simp [Nat.even_iff])

end Planegcs
